import Mathlib

/-!
Shallow embedding of the ramaris-app/sdk TypeScript client
(src/client.ts, src/errors.ts, src/types.ts).

Conventions of the embedding:
* JS strings are Lean `String`; JS numbers that the client treats as
  integers are Lean `Int` (a `parseInt` result of `NaN` is `Option.none`).
* `Headers.get` is a lookup in an association list of lowercase header
  names; a missing header is `none`, an empty-valued header is `some ""`.
* The result of `await response.json()` is represented by the value the
  parse would yield, projected to the shape the source declares
  (`ErrorBody` for the error path, the caller's envelope for 2xx), with
  `none` standing for a parse failure (a thrown SyntaxError).
* A `fetch` that throws is `FetchOutcome.failure m`, where `m` is
  `some msg` when the thrown value is an `Error` with message `msg`.
* Thrown client errors become the `RequestResult.error` constructor; an
  exception that is not a client error (the JSON parse of a 2xx body
  failing) is `RequestResult.unhandled`.
-/

namespace Ramaris

/-- src/client.ts line 17. -/
def DEFAULT_BASE_URL : String := "https://www.ramaris.app/api/v1"

/-- Response headers as an association list of (lowercase name, value). -/
abbrev Headers := List (String × String)

/-- JS `Headers.get(name)`: the value of the header, or null. -/
def headersGet (hs : Headers) (name : String) : Option String :=
  (hs.find? (fun p => p.1 == name)).map Prod.snd

/-- JS truthiness of a `string | null`: null and the empty string are falsy. -/
def truthy : Option String → Bool
  | none => false
  | some s => !(s == "")

/-- Does `small` occur at the start of `big`? (helper for `strContains`). -/
def startsWithChars : List Char → List Char → Bool
  | _, [] => true
  | [], _ :: _ => false
  | c :: cs, p :: ps => c == p && startsWithChars cs ps

/-- Does `small` occur anywhere in `big`? (helper for `strContains`). -/
def containsChars : List Char → List Char → Bool
  | [], small => small.isEmpty
  | c :: cs, small => startsWithChars (c :: cs) small || containsChars cs small

/-- JS `s.includes(pat)`: substring containment. -/
def strContains (s pat : String) : Bool :=
  containsChars s.toList pat.toList

/-- The longest leading run of decimal digits. -/
def leadingDigits (cs : List Char) : List Char :=
  cs.takeWhile Char.isDigit

/-- Decimal value of a digit list. -/
def digitsToNat (cs : List Char) : Nat :=
  cs.foldl (fun acc c => acc * 10 + (c.toNat - 48)) 0

/-- JS `parseInt(s, 10)`: skip leading whitespace, optional sign, then the
longest digit run; `none` models the `NaN` result when no digit is found. -/
def jsParseInt (s : String) : Option Int :=
  let cs := s.toList.dropWhile Char.isWhitespace
  let signed : Bool × List Char :=
    match cs with
    | '-' :: rest => (true, rest)
    | '+' :: rest => (false, rest)
    | _ => (false, cs)
  let ds := leadingDigits signed.2
  if ds.isEmpty then none
  else
    let n : Int := Int.ofNat (digitsToNat ds)
    some (if signed.1 then -n else n)

/-- JS `s.replace(/\/+$/, '')`: drop every trailing slash. -/
def stripTrailingSlashes (s : String) : String :=
  String.mk ((s.toList.reverse.dropWhile (fun c => c == '/')).reverse)

/-- src/client.ts line 43: the stored base URL,
`(options.baseUrl ?? DEFAULT_BASE_URL).replace(/\/+$/, '')`. -/
def initBaseUrl (override : Option String) : String :=
  stripTrailingSlashes (override.getD DEFAULT_BASE_URL)

/-- src/types.ts `RateLimitInfo`; each field is a `parseInt` result, so
`none` stands for `NaN`. -/
structure RateLimitInfo where
  limit : Option Int
  remaining : Option Int
  reset : Option Int
deriving DecidableEq, Repr

/-- src/types.ts `PaginationParams` (both fields optional). -/
structure PaginationParams where
  page : Option Int
  pageSize : Option Int
deriving DecidableEq, Repr

/-- src/types.ts `Pagination`. -/
structure Pagination where
  page : Int
  pageSize : Int
  totalItems : Int
  totalPages : Int
deriving DecidableEq, Repr

/-- src/types.ts `PaginatedResponse<T>`. -/
structure PaginatedResponse (T : Type) where
  data : List T
  pagination : Pagination
deriving DecidableEq, Repr

/-- The `{ data: T }` envelope used by `getSingle` (src/client.ts line 75). -/
structure SingleEnvelope (T : Type) where
  data : T
deriving DecidableEq, Repr

/-- `URLSearchParams.toString()` on a list of (key, value) pairs:
`k1=v1&k2=v2&...` (values here are decimal integers, on which the
form-urlencoding is the identity). -/
def serializeQuery : List (String × String) → String
  | [] => ""
  | [kv] => kv.1 ++ "=" ++ kv.2
  | kv :: rest => kv.1 ++ "=" ++ kv.2 ++ "&" ++ serializeQuery rest

/-- src/client.ts lines 108-118, `buildUrl`: `baseUrl + path`, then `page`
and `pageSize` appended to a `URLSearchParams` in that order when defined;
the query string is attached only when nonempty. -/
def buildUrl (baseUrl : String) (path : String) (params : Option PaginationParams) : String :=
  let url := baseUrl ++ path
  match params with
  | none => url
  | some p =>
      let sp0 : List (String × String) := []
      let sp1 : List (String × String) :=
        match p.page with
        | some v => sp0 ++ [("page", toString v)]
        | none => sp0
      let sp2 : List (String × String) :=
        match p.pageSize with
        | some v => sp1 ++ [("pageSize", toString v)]
        | none => sp1
      let qs := serializeQuery sp2
      if qs == "" then url else url ++ "?" ++ qs

/-- The optional `error` object of the error body declared inside
`handleErrorResponse` (src/client.ts lines 135-137). -/
structure ErrorInfo where
  code : Option String
  message : Option String
  retryAfter : Option Int
deriving DecidableEq, Repr

/-- src/client.ts `interface ErrorBody { error?: ... }`. -/
structure ErrorBody where
  error : Option ErrorInfo
deriving DecidableEq, Repr

/-- src/errors.ts: the closed error taxonomy. `ramarisError` is the base
class `RamarisError(message, code, status)`; `rateLimitError` is
`RateLimitError(message, retryAfter)`, whose constructor passes
`code = 'RATE_LIMITED'` and `status = 429` to the base class. -/
inductive ClientError where
  | ramarisError (message : String) (code : String) (status : Nat)
  | rateLimitError (message : String) (retryAfter : Int)
deriving DecidableEq, Repr

/-- The `code` field of the constructed error object (src/errors.ts). -/
def ClientError.code : ClientError → String
  | .ramarisError _ c _ => c
  | .rateLimitError _ _ => "RATE_LIMITED"

/-- The `status` field of the constructed error object (src/errors.ts). -/
def ClientError.status : ClientError → Nat
  | .ramarisError _ _ s => s
  | .rateLimitError _ _ => 429

/-- The `message` field of the constructed error object (src/errors.ts). -/
def ClientError.message : ClientError → String
  | .ramarisError m _ _ => m
  | .rateLimitError m _ => m

/-- The `retryAfter` field: only the rate-limit variant carries one. -/
def ClientError.retryAfterVal : ClientError → Option Int
  | .ramarisError _ _ _ => none
  | .rateLimitError _ r => some r

/-- src/client.ts lines 140-147: the body `handleErrorResponse` works with.
`parsed` is what `await response.json()` would yield (`none` on a parse
failure); the body is consulted only when the content-type header exists
and contains the substring `application/json`, and a parse failure is
swallowed, leaving the body null. -/
def jsonBody (headers : Headers) (parsed : Option ErrorBody) : Option ErrorBody :=
  match headersGet headers "content-type" with
  | some ct => if strContains ct "application/json" then parsed else none
  | none => none

/-- src/client.ts lines 134-158, `handleErrorResponse`: extract
`code`/`message` with defaults, then throw `RateLimitError` on status 429
and `RamarisError` otherwise. The returned value is the thrown error. -/
def handleErrorResponse (status : Nat) (headers : Headers) (parsed : Option ErrorBody) :
    ClientError :=
  let body := jsonBody headers parsed
  let code := ((body.bind ErrorBody.error).bind ErrorInfo.code).getD "UNKNOWN_ERROR"
  let message :=
    ((body.bind ErrorBody.error).bind ErrorInfo.message).getD ("HTTP " ++ toString status)
  if status == 429 then
    let retryAfter := ((body.bind ErrorBody.error).bind ErrorInfo.retryAfter).getD 0
    ClientError.rateLimitError message retryAfter
  else
    ClientError.ramarisError message code status

/-- Outcome of the `fetch` call in `request` (src/client.ts lines 82-97):
either the call itself throws (`failure`, with the thrown `Error`'s
message when there is one), or a response arrives with a status, headers,
and a body; `errBody` / `body` are the values `await response.json()`
would produce under the error-path / success-path casts (`none` when the
parse would throw). -/
inductive FetchOutcome (β : Type) where
  | failure (errMessage : Option String)
  | response (status : Nat) (headers : Headers) (errBody : Option ErrorBody) (body : Option β)

/-- How one call of `request` terminates: a returned value, a thrown
client error, or a thrown non-client exception (the 2xx JSON parse
failing on line 105). -/
inductive RequestResult (β : Type) where
  | value (v : β)
  | error (e : ClientError)
  | unhandled
deriving DecidableEq, Repr

/-- Does the call return normally with a value? -/
def RequestResult.isValue : RequestResult β → Bool
  | .value _ => true
  | _ => false

/-- JS `Response.ok`: status in the inclusive range [200, 299]. -/
def is2xx (status : Nat) : Bool :=
  decide (200 ≤ status) && decide (status ≤ 299)

/-- src/client.ts lines 120-132, `updateRateLimit`: read the three
rate-limit headers; overwrite the snapshot only when all three are truthy
(present and nonempty), else keep the prior snapshot. -/
def updateRateLimit (headers : Headers) (prior : Option RateLimitInfo) :
    Option RateLimitInfo :=
  match headersGet headers "x-ratelimit-limit",
        headersGet headers "x-ratelimit-remaining",
        headersGet headers "x-ratelimit-reset" with
  | some l, some r, some t =>
      if !(l == "") && !(r == "") && !(t == "") then
        some ⟨jsParseInt l, jsParseInt r, jsParseInt t⟩
      else prior
  | _, _, _ => prior

/-- src/client.ts lines 79-106, `request`, as a function of the client's
current rate-limit snapshot and the fetch outcome; returns how the call
terminates together with the snapshot after the call. A thrown fetch
becomes `NETWORK_ERROR` before the snapshot is touched; otherwise the
snapshot is updated from the headers, then a non-2xx status is handed to
`handleErrorResponse` (which always throws) and a 2xx body is parsed and
returned. -/
def request (st : Option RateLimitInfo) (outcome : FetchOutcome β) :
    RequestResult β × Option RateLimitInfo :=
  match outcome with
  | .failure m =>
      (.error (.ramarisError (m.getD "Network error") "NETWORK_ERROR" 0), st)
  | .response status headers errBody body =>
      let st2 := updateRateLimit headers st
      if is2xx status then
        match body with
        | some v => (.value v, st2)
        | none => (.unhandled, st2)
      else
        (.error (handleErrorResponse status headers errBody), st2)

/-- src/client.ts lines 74-77, `getSingle`: delegate to `request` with the
`{ data: T }` envelope and return the `data` field of the result. -/
def getSingle (st : Option RateLimitInfo) (outcome : FetchOutcome (SingleEnvelope T)) :
    RequestResult T × Option RateLimitInfo :=
  match request st outcome with
  | (.value envelope, st2) => (.value envelope.data, st2)
  | (.error e, st2) => (.error e, st2)
  | (.unhandled, st2) => (.unhandled, st2)

/-- src/client.ts lines 67-72, `getPaginated`: delegate to `request` with
the paginated envelope and return it unmodified. -/
def getPaginated (st : Option RateLimitInfo) (outcome : FetchOutcome (PaginatedResponse T)) :
    RequestResult (PaginatedResponse T) × Option RateLimitInfo :=
  request st outcome

/-! ## Helper lemmas -/

/-- A query string produced from a nonempty parameter list is nonempty. -/
theorem serializeQuery_cons_ne_empty (k v : String) (rest : List (String × String)) :
    (serializeQuery ((k, v) :: rest) == "") = false := by
  rw [beq_eq_false_iff_ne]
  intro h
  have hl := congrArg String.length h
  have he : ("=" : String).length = 1 := rfl
  cases rest with
  | nil =>
      simp only [serializeQuery, String.length_append] at hl
      simp at hl
      omega
  | cons b bs =>
      simp only [serializeQuery, String.length_append] at hl
      simp at hl
      omega

/-- The head of a list after dropping leading slashes is not a slash. -/
theorem head?_dropSlash_ne (l : List Char) :
    (l.dropWhile (fun c => c == '/')).head? ≠ some '/' := by
  have hd := List.head?_dropWhile_not (fun c => c == '/') l
  cases h : (l.dropWhile (fun c => c == '/')).head? with
  | none => simp
  | some c =>
      rw [h] at hd
      simp only at hd
      simp only [ne_eq, Option.some.injEq]
      intro hc
      rw [hc] at hd
      simp at hd

/-! ## Claims -/

/-- C1: for every HTTP response with status exactly 429, `handleErrorResponse`
throws the rate-limit variant whose `code` is `RATE_LIMITED` and `status` is
429 regardless of any code in the body, whose `retryAfter` is the (JSON-gated)
body's `error.retryAfter` when present and 0 otherwise, and whose `message` is
the extracted message. -/
theorem handleError429_rateLimit_contract (headers : Headers) (eb : Option ErrorBody) :
    (handleErrorResponse 429 headers eb).code = "RATE_LIMITED" ∧
    (handleErrorResponse 429 headers eb).status = 429 ∧
    (handleErrorResponse 429 headers eb).retryAfterVal =
      some ((((jsonBody headers eb).bind ErrorBody.error).bind ErrorInfo.retryAfter).getD 0) ∧
    (handleErrorResponse 429 headers eb).message =
      (((jsonBody headers eb).bind ErrorBody.error).bind ErrorInfo.message).getD "HTTP 429" :=
  ⟨rfl, rfl, rfl, rfl⟩

/-- C2 counterexample: a response carrying all three rate-limit headers, one
of them with an empty value, leaves the prior snapshot in place (JS truthiness
treats the empty string like a missing header), contradicting the claim that
the snapshot is overwritten whenever all three headers are present. -/
theorem rateLimit_snapshot_present_counterexample :
    ((headersGet [("x-ratelimit-limit", ""), ("x-ratelimit-remaining", "5"),
        ("x-ratelimit-reset", "100")] "x-ratelimit-limit").isSome ∧
     (headersGet [("x-ratelimit-limit", ""), ("x-ratelimit-remaining", "5"),
        ("x-ratelimit-reset", "100")] "x-ratelimit-remaining").isSome ∧
     (headersGet [("x-ratelimit-limit", ""), ("x-ratelimit-remaining", "5"),
        ("x-ratelimit-reset", "100")] "x-ratelimit-reset").isSome) ∧
    updateRateLimit [("x-ratelimit-limit", ""), ("x-ratelimit-remaining", "5"),
        ("x-ratelimit-reset", "100")] (some ⟨some 1, some 2, some 3⟩) =
      some ⟨some 1, some 2, some 3⟩ ∧
    (some (⟨some 1, some 2, some 3⟩ : RateLimitInfo) ≠
      some ⟨jsParseInt "", jsParseInt "5", jsParseInt "100"⟩) := by
  decide

/-- C2 (amended): after every response the snapshot becomes
`updateRateLimit headers prior`; the snapshot is overwritten with the
integer-parsed header values when all three rate-limit headers are present
with nonempty (truthy) values, and retained unchanged when any of the three
is missing or empty. -/
theorem rateLimit_snapshot_truthy_update (β : Type) (st prior : Option RateLimitInfo)
    (s : Nat) (headers : Headers) (eb : Option ErrorBody) (body : Option β) :
    (request st (FetchOutcome.response s headers eb body)).2 = updateRateLimit headers st ∧
    (truthy (headersGet headers "x-ratelimit-limit") = true →
     truthy (headersGet headers "x-ratelimit-remaining") = true →
     truthy (headersGet headers "x-ratelimit-reset") = true →
     updateRateLimit headers prior =
       some ⟨jsParseInt ((headersGet headers "x-ratelimit-limit").getD ""),
             jsParseInt ((headersGet headers "x-ratelimit-remaining").getD ""),
             jsParseInt ((headersGet headers "x-ratelimit-reset").getD "")⟩) ∧
    ((truthy (headersGet headers "x-ratelimit-limit") = false ∨
      truthy (headersGet headers "x-ratelimit-remaining") = false ∨
      truthy (headersGet headers "x-ratelimit-reset") = false) →
     updateRateLimit headers prior = prior) := by
  refine ⟨?_, ?_, ?_⟩
  · cases hh : is2xx s <;> cases body <;> simp [request, hh]
  · intro h1 h2 h3
    cases hl : headersGet headers "x-ratelimit-limit" with
    | none => rw [hl] at h1; simp [truthy] at h1
    | some l =>
      cases hr : headersGet headers "x-ratelimit-remaining" with
      | none => rw [hr] at h2; simp [truthy] at h2
      | some r =>
        cases ht : headersGet headers "x-ratelimit-reset" with
        | none => rw [ht] at h3; simp [truthy] at h3
        | some t =>
          rw [hl] at h1; rw [hr] at h2; rw [ht] at h3
          simp only [truthy] at h1 h2 h3
          simp [updateRateLimit, hl, hr, ht, h1, h2, h3]
  · intro h
    cases hl : headersGet headers "x-ratelimit-limit" with
    | none => simp [updateRateLimit, hl]
    | some l =>
      cases hr : headersGet headers "x-ratelimit-remaining" with
      | none => simp [updateRateLimit, hl, hr]
      | some r =>
        cases ht : headersGet headers "x-ratelimit-reset" with
        | none => simp [updateRateLimit, hl, hr, ht]
        | some t =>
          rw [hl, hr, ht] at h
          simp only [truthy] at h
          rcases h with h | h | h <;> simp at h <;>
            simp [updateRateLimit, hl, hr, ht, h]

/-- C2 witness: a full truthy header triple overwrites the snapshot; a
partial triple retains the prior snapshot. -/
theorem rateLimit_snapshot_truthy_update_witness :
    updateRateLimit [("x-ratelimit-limit", "100"), ("x-ratelimit-remaining", "99"),
        ("x-ratelimit-reset", "1700")] none = some ⟨some 100, some 99, some 1700⟩ ∧
    updateRateLimit [("x-ratelimit-limit", "100")] (some ⟨some 1, some 2, some 3⟩) =
      some ⟨some 1, some 2, some 3⟩ := by
  constructor
  · rw [(rateLimit_snapshot_truthy_update Nat none none 200
      [("x-ratelimit-limit", "100"), ("x-ratelimit-remaining", "99"),
        ("x-ratelimit-reset", "1700")] none none).2.1
      (by decide) (by decide) (by decide)]
    decide
  · exact (rateLimit_snapshot_truthy_update Nat none (some ⟨some 1, some 2, some 3⟩) 200
      [("x-ratelimit-limit", "100")] none none).2.2 (Or.inr (Or.inl (by decide)))

/-- C3 counterexample: a response with status 200 (inside [200,299]) whose
body fails to parse as JSON makes `await response.json()` on line 105 throw,
so the call does not return a value, contradicting the claimed equivalence
"returns a value if and only if the status is in [200,299]". -/
theorem request_2xx_unparsable_counterexample :
    is2xx 200 = true ∧
    RequestResult.isValue
      (request (β := Nat) none (FetchOutcome.response 200 [] none none)).1 = false := by
  decide

/-- C3 (amended): every non-2xx response makes the call signal exactly the
one typed error produced by `handleErrorResponse` and never return normally;
a 2xx response returns the parsed body as a value when the body parses as
JSON and otherwise propagates the parse exception; a fetch that obtains no
response signals the network error. -/
theorem request_return_iff_2xx_parsed (β : Type) (st : Option RateLimitInfo) (s : Nat)
    (headers : Headers) (eb : Option ErrorBody) (v : β) (m : Option String) :
    (is2xx s = false →
      (request st (FetchOutcome.response s headers eb (some v))).1 =
        RequestResult.error (handleErrorResponse s headers eb) ∧
      (request st (FetchOutcome.response s headers eb (none : Option β))).1 =
        RequestResult.error (handleErrorResponse s headers eb)) ∧
    (is2xx s = true →
      (request st (FetchOutcome.response s headers eb (some v))).1 = RequestResult.value v ∧
      (request st (FetchOutcome.response s headers eb (none : Option β))).1 =
        RequestResult.unhandled) ∧
    (request (β := β) st (FetchOutcome.failure m)).1 =
      RequestResult.error
        (ClientError.ramarisError (m.getD "Network error") "NETWORK_ERROR" 0) := by
  refine ⟨fun h => ?_, fun h => ?_, rfl⟩ <;> constructor <;> simp [request, h]

/-- C3 witness: a 404 response signals the normalized error; a parsed 200
response returns its body. -/
theorem request_return_iff_2xx_parsed_witness :
    (request (β := Nat) none (FetchOutcome.response 404 [] none (some 7))).1 =
      RequestResult.error (handleErrorResponse 404 [] none) ∧
    (request (β := Nat) none (FetchOutcome.response 200 [] none (some 7))).1 =
      RequestResult.value 7 :=
  ⟨((request_return_iff_2xx_parsed Nat none 404 [] none 7 none).1 (by decide)).1,
   ((request_return_iff_2xx_parsed Nat none 200 [] none 7 none).2.1 (by decide)).1⟩

/-- C4 counterexample: at status 429 with a non-JSON body, the signaled error
is the rate-limit variant whose `code` is `RATE_LIMITED`, not
`UNKNOWN_ERROR`, so the claim does not hold for every non-2xx status. -/
theorem nonJson_429_code_counterexample :
    is2xx 429 = false ∧
    jsonBody [("content-type", "text/plain")] none = none ∧
    (handleErrorResponse 429 [("content-type", "text/plain")] none).code =
      "RATE_LIMITED" ∧
    (handleErrorResponse 429 [("content-type", "text/plain")] none).code ≠
      "UNKNOWN_ERROR" := by
  decide

/-- C4 (amended): for every non-2xx response other than 429 whose body is not
treated as JSON (content-type missing or not indicating JSON, or parse
failure), the signaled base error is exactly
`RamarisError("HTTP <status>", "UNKNOWN_ERROR", status)`; at status 429 the
rate-limit variant with message "HTTP 429" and retryAfter 0 is signaled
instead. The error normalization itself is total, so the parse failure never
masks the original HTTP failure. -/
theorem nonJson_error_defaults (s : Nat) (headers : Headers) (eb : Option ErrorBody)
    (h2 : is2xx s = false) (hj : jsonBody headers eb = none) :
    (s ≠ 429 →
      handleErrorResponse s headers eb =
        ClientError.ramarisError ("HTTP " ++ toString s) "UNKNOWN_ERROR" s) ∧
    (s = 429 →
      handleErrorResponse s headers eb =
        ClientError.rateLimitError ("HTTP " ++ toString s) 0) := by
  constructor
  · intro hne
    have hb : (s == 429) = false := beq_eq_false_iff_ne.mpr hne
    simp [handleErrorResponse, hj, hb]
  · intro he
    subst he
    simp [handleErrorResponse, hj]

/-- C4 witness: a 502 response with a `text/plain` body (even one whose text
would parse as an error object) degrades to the UNKNOWN_ERROR default. -/
theorem nonJson_error_defaults_witness :
    handleErrorResponse 502 [("content-type", "text/plain")]
        (some ⟨some ⟨some "BAD_GATEWAY", some "upstream exploded", none⟩⟩) =
      ClientError.ramarisError "HTTP 502" "UNKNOWN_ERROR" 502 :=
  (nonJson_error_defaults 502 [("content-type", "text/plain")]
      (some ⟨some ⟨some "BAD_GATEWAY", some "upstream exploded", none⟩⟩)
      (by decide) (by decide)).1 (by decide)

/-- C5: a transport-level failure (fetch itself throws, no response obtained)
signals a base error with code `NETWORK_ERROR` and status 0, carrying the
thrown `Error`'s message when there is one and the fallback message
"Network error" otherwise; the snapshot argument is passed through. -/
theorem network_failure_error (β : Type) (st : Option RateLimitInfo) (msg : String) :
    request (β := β) st (FetchOutcome.failure (some msg)) =
      (RequestResult.error (ClientError.ramarisError msg "NETWORK_ERROR" 0), st) ∧
    request (β := β) st (FetchOutcome.failure none) =
      (RequestResult.error (ClientError.ramarisError "Network error" "NETWORK_ERROR" 0), st) ∧
    (ClientError.ramarisError msg "NETWORK_ERROR" 0).code = "NETWORK_ERROR" ∧
    (ClientError.ramarisError msg "NETWORK_ERROR" 0).status = 0 :=
  ⟨rfl, rfl, rfl, rfl⟩

/-- C6: `buildUrl` is a pure function of its inputs, and for every path and
every optional (page, pageSize) pair it produces `baseUrl + path` followed by
a query string containing exactly the explicitly provided parameters, `page`
before `pageSize` when both are present, and no query string at all when no
params object is given or both fields are absent. -/
theorem buildUrl_query_cases (b p : String) (pg ps : Int) :
    buildUrl b p none = b ++ p ∧
    buildUrl b p (some ⟨none, none⟩) = b ++ p ∧
    buildUrl b p (some ⟨some pg, none⟩) = b ++ p ++ "?" ++ ("page=" ++ toString pg) ∧
    buildUrl b p (some ⟨none, some ps⟩) = b ++ p ++ "?" ++ ("pageSize=" ++ toString ps) ∧
    buildUrl b p (some ⟨some pg, some ps⟩) =
      b ++ p ++ "?" ++ ("page=" ++ toString pg ++ "&" ++ ("pageSize=" ++ toString ps)) := by
  refine ⟨rfl, rfl, ?_, ?_, ?_⟩ <;>
    simp only [buildUrl, List.nil_append, serializeQuery_cons_ne_empty, Bool.false_eq_true,
      if_false, ite_false] <;>
    rfl

/-- C7: a 2xx response parsed as `{data: X}` makes `getSingle` return exactly
`X` with the envelope discarded, while a 2xx response parsed as
`{data: Xs, pagination: P}` makes `getPaginated` return the full envelope
unmodified. -/
theorem envelope_unwrap_contract (T : Type) (st : Option RateLimitInfo) (s : Nat)
    (headers : Headers) (eb : Option ErrorBody) (x : T) (xs : List T) (pg : Pagination)
    (h2 : is2xx s = true) :
    (getSingle st (FetchOutcome.response s headers eb (some ⟨x⟩))).1 =
      RequestResult.value x ∧
    (getPaginated st (FetchOutcome.response s headers eb (some ⟨xs, pg⟩))).1 =
      RequestResult.value ⟨xs, pg⟩ := by
  constructor <;> simp [getSingle, getPaginated, request, h2]

/-- C7 witness: a 200 response with body `{data: 7}` yields 7 from the
single-item call, and `{data: [7], pagination: (1,20,1,1)}` comes back whole
from the paginated call. -/
theorem envelope_unwrap_contract_witness :
    (getSingle (T := Nat) none (FetchOutcome.response 200 [] none (some ⟨7⟩))).1 =
      RequestResult.value 7 ∧
    (getPaginated (T := Nat) none
        (FetchOutcome.response 200 [] none (some ⟨[7], ⟨1, 20, 1, 1⟩⟩))).1 =
      RequestResult.value ⟨[7], ⟨1, 20, 1, 1⟩⟩ :=
  envelope_unwrap_contract Nat none 200 [] none 7 [7] ⟨1, 20, 1, 1⟩ (by decide)

/-- C8: trailing slashes of a supplied baseUrl override are stripped at
construction time (appending a slash changes nothing, and the stored base URL
never ends in a slash), so the documented example produces
`https://x/v1/strategies` with no double slash. The stored configuration is a
pure value, never mutated afterwards. -/
theorem baseUrl_trailing_slash_stripped (s : String) :
    initBaseUrl (some (s ++ "/")) = initBaseUrl (some s) ∧
    (initBaseUrl (some s)).toList.getLast? ≠ some '/' ∧
    buildUrl (initBaseUrl (some "https://x/v1/")) "/strategies" none =
      "https://x/v1/strategies" := by
  refine ⟨?_, ?_, by decide⟩
  · unfold initBaseUrl stripTrailingSlashes
    simp only [Option.getD_some]
    have hdata : (s ++ "/").toList = s.toList ++ ['/'] := String.data_append s "/"
    rw [hdata, List.reverse_append]
    simp
  · unfold initBaseUrl stripTrailingSlashes
    simp only [Option.getD_some]
    rw [show (String.mk ((s.toList.reverse.dropWhile (fun c => c == '/')).reverse)).toList =
        (s.toList.reverse.dropWhile (fun c => c == '/')).reverse from rfl]
    rw [List.getLast?_reverse]
    exact head?_dropSlash_ne _

/-- C9: a fetch that throws (no response obtained) leaves the rate-limit
snapshot completely unchanged: the NETWORK_ERROR is signaled before the
snapshot-update step runs, so only calls that obtained a response can modify
the snapshot. -/
theorem network_failure_snapshot_frame (β : Type) (st : Option RateLimitInfo)
    (m : Option String) :
    (request (β := β) st (FetchOutcome.failure m)).2 = st :=
  rfl

/-- C10: the error normalization treats the response body as JSON exactly
when the content-type header value contains the substring
`application/json`; for any other content-type value — including other JSON
media types — the body is ignored and `handleErrorResponse` behaves as if
there were no body, even when the body is valid JSON. -/
theorem contentType_gate (s : Nat) (headers : Headers) (eb : ErrorBody) (ct : String)
    (hct : headersGet headers "content-type" = some ct) :
    (strContains ct "application/json" = false →
      jsonBody headers (some eb) = none ∧
      handleErrorResponse s headers (some eb) = handleErrorResponse s headers none) ∧
    (strContains ct "application/json" = true →
      jsonBody headers (some eb) = some eb) := by
  constructor
  · intro hno
    have hj : jsonBody headers (some eb) = none := by simp [jsonBody, hct, hno]
    have hj0 : jsonBody headers (none : Option ErrorBody) = none := by
      simp [jsonBody, hct]
    exact ⟨hj, by simp [handleErrorResponse, hj, hj0]⟩
  · intro hyes
    simp [jsonBody, hct, hyes]

/-- C10 witness: an `application/problem+json` body is ignored (its value
does not reach the error), while `application/json; charset=utf-8` passes the
gate. -/
theorem contentType_gate_witness :
    (jsonBody [("content-type", "application/problem+json")]
        (some ⟨some ⟨some "X", some "m", some 5⟩⟩) = none ∧
      handleErrorResponse 500 [("content-type", "application/problem+json")]
          (some ⟨some ⟨some "X", some "m", some 5⟩⟩) =
        handleErrorResponse 500 [("content-type", "application/problem+json")] none) ∧
    jsonBody [("content-type", "application/json; charset=utf-8")]
        (some ⟨some ⟨some "X", some "m", some 5⟩⟩) =
      some ⟨some ⟨some "X", some "m", some 5⟩⟩ :=
  ⟨(contentType_gate 500 [("content-type", "application/problem+json")]
      ⟨some ⟨some "X", some "m", some 5⟩⟩ "application/problem+json" rfl).1 (by decide),
   (contentType_gate 500 [("content-type", "application/json; charset=utf-8")]
      ⟨some ⟨some "X", some "m", some 5⟩⟩ "application/json; charset=utf-8" rfl).2
      (by decide)⟩

end Ramaris
